import Mathlib

/-!
Shallow embedding of the Perfume Store bot (src/bot.py) and proofs about its
message-classification and response-generation pipeline.

Modelling conventions:
* Python dictionaries holding product / FAQ / intent records become structures
  whose fields are `Option`-valued: `none` models an absent key, `some v` a
  present key (so a present-but-empty string stays distinct from a missing key).
* `d.get(k, default)` becomes `field.getD default`; `d[k]` (which raises
  `KeyError` on a missing key) becomes an `Except` failure.
* Prices are only ever formatted into reply text, never computed with, so a
  price is modelled by its printed form (a string).
* Python substring search `needle in hay` becomes `strContains hay needle`;
  `str.lower` becomes `pyLower` (the data and queries are ASCII);
  `str.split()` becomes splitting on whitespace and dropping empty pieces;
  `str.title` becomes `pyTitle`.
* `random.choice` and `random.sample` are modelled by oracle parameters
  `pick : List String → String` and `sample : List Perfume → Nat → List Perfume`
  (with the guarantee, where needed, that a sample draws from its input list).
-/

/-- Membership test for a needle inside a haystack of characters, the boolean
analogue of `List.IsInfix`. The empty needle matches everything, as the empty
Python string is a substring of every string. -/
def listInfix : List Char → List Char → Bool
  | needle, [] => needle.isEmpty
  | needle, h :: t => needle.isPrefixOf (h :: t) || listInfix needle t

/-- Python `needle in hay` for strings. -/
def strContains (hay needle : String) : Bool :=
  listInfix needle.toList hay.toList

/-- Python truthiness of an optional string: `None` and `""` are falsy. -/
def pyTruthy : Option String → Bool
  | none => false
  | some s => s ≠ ""

/-- Python `str.lower()` (ASCII data): lowercase every character. -/
def pyLower (s : String) : String :=
  String.mk (s.toList.map Char.toLower)

/-- Worker for `pySplitWs`: the accumulator holds the current word reversed. -/
def splitWsAux : List Char → List Char → List String
  | acc, [] => if acc.isEmpty then [] else [String.mk acc.reverse]
  | acc, c :: cs =>
      if c.isWhitespace then
        if acc.isEmpty then splitWsAux [] cs
        else String.mk acc.reverse :: splitWsAux [] cs
      else splitWsAux (c :: acc) cs

/-- Python `str.split()` with no argument: split on whitespace runs, dropping
empty pieces. -/
def pySplitWs (s : String) : List String :=
  splitWsAux [] s.toList

/-- Character-level worker for `pyTitle`: the boolean records whether the
previous character was alphabetic. -/
def pyTitleAux : Bool → List Char → List Char
  | _, [] => []
  | prevAlpha, c :: cs =>
      (if c.isAlpha then (if prevAlpha then c.toLower else c.toUpper) else c)
        :: pyTitleAux c.isAlpha cs

/-- Python `str.title()` (ASCII): uppercase each letter that follows a
non-letter, lowercase the other letters. -/
def pyTitle (s : String) : String :=
  String.mk (pyTitleAux false s.toList)

/-- A perfume record from the training data (a Python dict in `bot.py`).
Every field may be absent. -/
structure Perfume where
  id : Option Int
  name : Option String
  price : Option String
  category : Option String
  notes : Option (List String)
  description : Option String
deriving DecidableEq, Repr

/-- An FAQ record: `question` / `answer` keys, either may be absent. -/
structure Faq where
  question : Option String
  answer : Option String
deriving DecidableEq, Repr

/-- An intent record: `name` / `patterns` / `responses` keys.  The stored
`responses` are carried but never consulted by the generator. -/
structure Intent where
  name : Option String
  patterns : Option (List String)
  responses : Option (List String)
deriving DecidableEq, Repr

/-- The state of `PerfumeAI`: the three collections loaded at startup. -/
structure AIState where
  perfumes : List Perfume
  faqs : List Faq
  intents : List Intent
deriving DecidableEq, Repr

/-- The fallback keyword groups of `PerfumeAI.find_intent`, in source order. -/
def greetingWords : List String := ["hi", "hello", "hey"]

/-- Recommendation keywords of the fallback ladder. -/
def recommendWords : List String := ["recommend", "suggest"]

/-- Price keywords of the fallback ladder. -/
def priceWords : List String := ["price", "how much", "cost"]

/-- Category keywords of the fallback ladder (also the fixed category
vocabulary of the `category_query` branch). -/
def categoryWords : List String := ["floral", "woody", "citrus", "fresh", "oriental"]

/-- Does one of the words occur in the (already lower-cased) message?
Python `any(word in msg_lower for word in ws)`. -/
def wordHit (msgLower : String) (ws : List String) : Bool :=
  ws.any (fun w => strContains msgLower w)

/-- Does the intent record match the lower-cased message?  Python
`any(pattern.lower() in msg_lower for pattern in intent.get("patterns", []))`. -/
def intentMatches (msgLower : String) (it : Intent) : Bool :=
  (it.patterns.getD []).any (fun p => strContains msgLower (pyLower p))

/-- `PerfumeAI.find_intent`: stored intents in catalog order first (returning
`intent.get("name", "unknown")` on the first pattern hit), then the
hard-coded keyword ladder, else `"unknown"`. -/
def findIntent (st : AIState) (message : String) : String :=
  let msgLower := pyLower message
  match st.intents.find? (fun it => intentMatches msgLower it) with
  | some it => it.name.getD "unknown"
  | none =>
    if wordHit msgLower greetingWords then "greeting"
    else if wordHit msgLower recommendWords then "recommendation"
    else if wordHit msgLower priceWords then "price_inquiry"
    else if wordHit msgLower categoryWords then "category_query"
    else "unknown"

/-- Does the FAQ match the lower-cased input?  Python: any of the first three
whitespace-separated words of `faq.get("question", "").lower()` occurs in the
lower-cased input. -/
def faqMatches (questionLower : String) (f : Faq) : Bool :=
  ((pySplitWs (pyLower (f.question.getD ""))).take 3).any
    (fun w => strContains questionLower w)

/-- `PerfumeAI.answer_faq`: scan the FAQs in catalog order; on the first match
return `faq.get("answer")` (which is `none` when the key is absent), else
`none`. -/
def answerFaq (st : AIState) (question : String) : Option String :=
  let questionLower := pyLower question
  match st.faqs.find? (fun f => faqMatches questionLower f) with
  | some f => f.answer
  | none => none

/-- Name-phase test of `PerfumeAI.find_perfume`:
`perfume.get("name", "").lower() in query_lower`. -/
def nameMatch (queryLower : String) (p : Perfume) : Bool :=
  strContains queryLower (pyLower (p.name.getD ""))

/-- Category-phase test: `perfume.get("category", "").lower() in query_lower`. -/
def catMatch (queryLower : String) (p : Perfume) : Bool :=
  strContains queryLower (pyLower (p.category.getD ""))

/-- Note-phase test: some note of `perfume.get("notes", [])`, lower-cased,
occurs in the query. -/
def noteMatch (queryLower : String) (p : Perfume) : Bool :=
  (p.notes.getD []).any (fun n => strContains queryLower (pyLower n))

/-- `PerfumeAI.find_perfume`: three scans of the whole product list, in
catalog order — by name, then by category, then by notes — first hit wins. -/
def findPerfume (st : AIState) (query : String) : Option Perfume :=
  let queryLower := pyLower query
  match st.perfumes.find? (fun p => nameMatch queryLower p) with
  | some p => some p
  | none =>
    match st.perfumes.find? (fun p => catMatch queryLower p) with
    | some p => some p
    | none => st.perfumes.find? (fun p => noteMatch queryLower p)

/-- The reply payload built by `PerfumeAI.generate_response`: the dictionary
with keys `response`, `type` (here `rtype`), `confidence`, and the optional
`perfume` / `perfumes` keys of the entity and recommendation branches. -/
structure GenResult where
  response : String
  rtype : String
  confidence : ℚ
  perfume : Option Perfume
  perfumes : Option (List Perfume)
deriving DecidableEq, Repr

/-- Python `d[k]`: the value when the key is present, a `KeyError` otherwise. -/
def getKey (v : Option α) (k : String) : Except String α :=
  match v with
  | some x => Except.ok x
  | none => Except.error ("KeyError: " ++ k)

/-- The product card of step 2 of `generate_response`: name and price are
accessed with `perfume["..."]` (can raise), category / notes / description are
guarded by key-presence tests. -/
def perfumeCard (p : Perfume) : Except String String := do
  let n ← getKey p.name "name"
  let pr ← getKey p.price "price"
  let r := "**" ++ n ++ "**\n\n" ++ "💰 Price: $" ++ pr ++ "\n"
  let r := match p.category with
    | some c => r ++ "🌸 Category: " ++ pyTitle c ++ "\n"
    | none => r
  let r := match p.notes with
    | some ns => if ns.isEmpty then r else
        r ++ "🎀 Notes: " ++ String.intercalate ", " (ns.take 3) ++ "\n"
    | none => r
  let r := match p.description with
    | some d => r ++ "\n" ++ d
    | none => r
  Except.ok r

/-- One recommendation bullet: `⭐ **name** - $price` plus an indented
description when present. -/
def recLine (acc : String) (p : Perfume) : Except String String := do
  let n ← getKey p.name "name"
  let pr ← getKey p.price "price"
  let line := "⭐ **" ++ n ++ "** - $" ++ pr ++ "\n"
  let line := match p.description with
    | some d => line ++ "   " ++ d ++ "\n\n"
    | none => line
  Except.ok (acc ++ line)

/-- One price-list bullet: `• name: $price`. -/
def priceLine (acc : String) (p : Perfume) : Except String String := do
  let n ← getKey p.name "name"
  let pr ← getKey p.price "price"
  Except.ok (acc ++ "• " ++ n ++ ": $" ++ pr ++ "\n")

/-- One category-list bullet: `• **name** - $price`. -/
def catLine (acc : String) (p : Perfume) : Except String String := do
  let n ← getKey p.name "name"
  let pr ← getKey p.price "price"
  Except.ok (acc ++ "• **" ++ n ++ "** - $" ++ pr ++ "\n")

/-- The three fixed greeting reply strings. -/
def greetingResponses : List String :=
  ["👋 Hello! Welcome to our perfume store! How can I help you today?",
   "🌟 Welcome to our fragrance boutique! What scent are you looking for?",
   "🌸 Hello there! Ready to find your perfect fragrance?"]

/-- The three fixed fallback reply strings. -/
def fallbackResponses : List String :=
  ["I\x27m not sure I understood. Try asking about specific perfumes or categories.",
   "Could you be more specific? For example, ask about \x27Floral Dream\x27 or \x27woody perfumes\x27.",
   "I\x27m here to help you find perfumes! Try asking for recommendations or checking prices."]

/-- Step 4 of `generate_response`: a random fallback string, type `fallback`,
confidence 0.3. -/
def fallbackResult (pick : List String → String) : Except String GenResult :=
  Except.ok ⟨pick fallbackResponses, "fallback", 3/10, none, none⟩

/-- Step 3 of `generate_response`: the intent branches.  `pick` models
`random.choice`, `sample` models `random.sample` (a sample of the requested
size drawn from the given list). -/
def intentStep (pick : List String → String)
    (sample : List Perfume → Nat → List Perfume)
    (st : AIState) (message : String) : Except String GenResult :=
  let intent := findIntent st message
  if intent = "greeting" then
    Except.ok ⟨pick greetingResponses, "greeting", 9/10, none, none⟩
  else if intent = "recommendation" then
    if st.perfumes.isEmpty then fallbackResult pick
    else
      let recommended := sample st.perfumes (min 3 st.perfumes.length)
      match recommended.foldlM recLine "✨ **Top Recommendations:**\n\n" with
      | Except.ok body =>
          Except.ok ⟨body, "recommendation", 8/10, none, some recommended⟩
      | Except.error e => Except.error e
  else if intent = "price_inquiry" then
    if st.perfumes.isEmpty then fallbackResult pick
    else
      match (st.perfumes.take 5).foldlM priceLine "💰 **Our Perfume Prices:**\n\n" with
      | Except.ok body => Except.ok ⟨body, "price_info", 7/10, none, none⟩
      | Except.error e => Except.error e
  else if intent = "category_query" then
    match categoryWords.find? (fun c => strContains (pyLower message) c) with
    | some cat =>
      let filtered := st.perfumes.filter (fun p => p.category = some cat)
      if filtered.isEmpty then fallbackResult pick
      else
        match filtered.foldlM catLine ("🌸 **" ++ pyTitle cat ++ " Perfumes:**\n\n") with
        | Except.ok body => Except.ok ⟨body, "category_info", 8/10, none, none⟩
        | Except.error e => Except.error e
    | none => fallbackResult pick
  else fallbackResult pick

/-- `PerfumeAI.generate_response`: FAQ step, then entity step, then the intent
branches, then the fallback. -/
def generateResponse (pick : List String → String)
    (sample : List Perfume → Nat → List Perfume)
    (st : AIState) (message : String) : Except String GenResult :=
  let faqAnswer := answerFaq st message
  if pyTruthy faqAnswer then
    Except.ok ⟨faqAnswer.getD "", "faq", 9/10, none, none⟩
  else
    match findPerfume st message with
    | some perfume =>
        match perfumeCard perfume with
        | Except.ok card =>
            Except.ok ⟨card, "perfume_info", 8/10, some perfume, none⟩
        | Except.error e => Except.error e
    | none => intentStep pick sample st message

/-- The `type` tag of a generation outcome, `none` when it raised. -/
def rtypeOf : Except String GenResult → Option String
  | Except.ok r => some r.rtype
  | Except.error _ => none

/-- The fixed per-branch confidence table of `generate_response`. -/
def branchConfidence : String → ℚ
  | "faq" => 9/10
  | "perfume_info" => 8/10
  | "greeting" => 9/10
  | "recommendation" => 8/10
  | "price_info" => 7/10
  | "category_info" => 8/10
  | _ => 3/10

/-- Replace the id field of a perfume record (`perfume["id"] = v`). -/
def setId (p : Perfume) (v : Int) : Perfume :=
  ⟨some v, p.name, p.price, p.category, p.notes, p.description⟩

/-- The body of the id-assignment loop of `load_training_data`:
`if "id" not in perfume: perfume["id"] = i + 1` for the pair `(i, perfume)`. -/
def assignEntry (pair : Nat × Perfume) : Perfume :=
  if pair.2.id = none then setId pair.2 ((pair.1 : Int) + 1) else pair.2

/-- The id-assignment loop of `load_training_data`:
`for i, perfume in enumerate(perfumes): ...` over the whole product list. -/
def assignIds (perfumes : List Perfume) : List Perfume :=
  perfumes.enum.map assignEntry

/-- The built-in default catalog returned when `training_data.json` is
missing. -/
def defaultPerfumes : List Perfume :=
  [⟨some 1, some "Floral Dream", some "45.99", some "floral", none, none⟩,
   ⟨some 2, some "Woody Essence", some "59.99", some "woody", none, none⟩,
   ⟨some 3, some "Citrus Splash", some "39.99", some "citrus", none, none⟩]

/-- The possible outcomes of reading and parsing `training_data.json`:
the file may be absent (`open` raises `FileNotFoundError`), its contents may
fail to parse (`json.load` raises `JSONDecodeError`), the parse may succeed
with a top-level value that is not an object (so `data.get` raises
`AttributeError`), or it may yield an object whose three collections are
read with `data.get(..., [])`. -/
inductive LoadSource
  | missing
  | invalidJson
  | topLevelNonDict
  | parsed (perfumes : List Perfume) (faqs : List Faq) (intents : List Intent)

/-- `load_training_data`: only `FileNotFoundError` and `JSONDecodeError` are
caught; a non-object top level escapes as an `AttributeError`. -/
def loadTrainingData :
    LoadSource → Except String (List Perfume × List Faq × List Intent)
  | LoadSource.missing => Except.ok (defaultPerfumes, [], [])
  | LoadSource.invalidJson => Except.ok ([], [], [])
  | LoadSource.topLevelNonDict =>
      Except.error "AttributeError: list object has no attribute get"
  | LoadSource.parsed ps fs is => Except.ok (assignIds ps, fs, is)

/-- The raw category strings the `/categories` endpoint collects:
`p.get("category", "") for p in PERFUMES if p.get("category")`. -/
def rawCategories (perfumes : List Perfume) : List String :=
  perfumes.filterMap (fun p =>
    if pyTruthy p.category then some (p.category.getD "") else none)

/-- The `GET /categories` endpoint: `list(set(...))` of the raw category
strings (modelled as `dedup`, one enumeration of the Python set), then
`[c.title() for c in categories if c]`. -/
def getCategories (perfumes : List Perfume) : List String :=
  (((rawCategories perfumes).dedup).filter (fun c => c ≠ "")).map pyTitle

/-- A state whose catalog defines an intent whose pattern is the greeting word
"hi"; used to exercise catalog-over-fallback priority. -/
def c2State : AIState :=
  ⟨[], [], [⟨some "catalog_greet", some ["hi"], none⟩]⟩

/-- The AI state after loading with a missing data file: the default catalog
and empty FAQ and intent lists. -/
def defaultState : AIState := ⟨defaultPerfumes, [], []⟩

/-- Two FAQs that both match questions beginning with "how long". -/
def c4State : AIState :=
  ⟨[], [⟨some "How long does perfume last?", some "Several hours."⟩,
        ⟨some "How long is shipping?", some "Two days."⟩], []⟩

/-- Two products whose categories differ only in case. -/
def floralLower : Perfume := ⟨some 1, some "A", some "1.00", some "floral", none, none⟩

/-- See `floralLower`. -/
def floralMixed : Perfume := ⟨some 2, some "B", some "2.00", some "Floral", none, none⟩

/-- A perfume record with every key absent. -/
def blankPerfume : Perfume := ⟨none, none, none, none, none, none⟩

/-- A source list mixing an explicit id 2 with an id-less record. -/
def c6src : List Perfume :=
  [⟨some 2, some "A", some "1.00", none, none, none⟩, blankPerfume]

/-- A product whose stored name matches the query of the counterexample. -/
def namedA : Perfume := ⟨some 1, some "a", some "1.00", none, none, none⟩

/-- A product with no name key at all. -/
def nameless : Perfume := ⟨some 2, none, some "2.00", some "floral", none, none⟩

/-- A deterministic stand-in for `random.choice`: the first element. -/
def pickHead (l : List String) : String := l.headD ""

/-- A deterministic stand-in for `random.sample` drawing nothing; any function
returning a sublist of its input is a valid model of `random.sample`. -/
def sampleNone (_l : List Perfume) (_n : Nat) : List Perfume := []

example : strContains "hello there" "hello" = true := by decide
example : strContains "abc" "" = true := by decide
example : pyTitle "floral" = "Floral" := by decide
example : pySplitWs "  how  long does " = ["how", "long", "does"] := by decide
example :
    findIntent ⟨[], [], []⟩ "recommend something" = "greeting" := by decide
example :
    findIntent ⟨[], [], []⟩ "recommend a perfume" = "recommendation" := by decide

/-- The confidence table evaluated at the seven branch tags. -/
theorem branchConfidence_eval :
    branchConfidence "faq" = 9/10 ∧ branchConfidence "perfume_info" = 8/10 ∧
    branchConfidence "greeting" = 9/10 ∧ branchConfidence "recommendation" = 8/10 ∧
    branchConfidence "price_info" = 7/10 ∧ branchConfidence "category_info" = 8/10 ∧
    branchConfidence "fallback" = 3/10 :=
  ⟨rfl, rfl, rfl, rfl, rfl, rfl, rfl⟩

/-- A scan with early return: if position `i` holds a hit and every earlier
position holds a miss, `find?` returns the element at `i`. -/
theorem find?_first {α : Type} (p : α → Bool) (l : List α) :
    ∀ (i : Nat) (x : α), l[i]? = some x → p x = true →
      (∀ j y, j < i → l[j]? = some y → p y = false) → l.find? p = some x := by
  induction l with
  | nil => intro i x hx _ _; simp at hx
  | cons h t ih =>
    intro i x hx hpx hbef
    cases i with
    | zero =>
      simp only [List.getElem?_cons_zero, Option.some.injEq] at hx
      subst hx
      exact List.find?_cons_of_pos _ hpx
    | succ n =>
      have hh : p h = false := hbef 0 h (Nat.succ_pos n) (by simp)
      rw [List.find?_cons_of_neg _ (by simp [hh])]
      exact ih n x (by simpa using hx) hpx
        (fun j y hj hy => hbef (j + 1) y (Nat.succ_lt_succ hj) (by simpa using hy))

/-- C2: intent classification scans the stored intent definitions in catalog
order and, on the first intent one of whose lower-cased patterns occurs in the
lower-cased input, returns the name of that intent immediately, regardless of any
fallback keyword also present; only when no stored pattern matches does it try
the fallback groups in the order greeting, recommendation, price, category,
returning "unknown" when none of them match. -/
theorem c2_find_intent_priority (st : AIState) (message : String) :
    (∀ (i : Nat) (it : Intent) (n : String),
        st.intents[i]? = some it → it.name = some n →
        intentMatches (pyLower message) it = true →
        (∀ j it0, j < i → st.intents[j]? = some it0 →
            intentMatches (pyLower message) it0 = false) →
        findIntent st message = n) ∧
    ((∀ it ∈ st.intents, intentMatches (pyLower message) it = false) →
      (wordHit (pyLower message) greetingWords = true →
        findIntent st message = "greeting") ∧
      (wordHit (pyLower message) greetingWords = false →
        wordHit (pyLower message) recommendWords = true →
        findIntent st message = "recommendation") ∧
      (wordHit (pyLower message) greetingWords = false →
        wordHit (pyLower message) recommendWords = false →
        wordHit (pyLower message) priceWords = true →
        findIntent st message = "price_inquiry") ∧
      (wordHit (pyLower message) greetingWords = false →
        wordHit (pyLower message) recommendWords = false →
        wordHit (pyLower message) priceWords = false →
        wordHit (pyLower message) categoryWords = true →
        findIntent st message = "category_query") ∧
      (wordHit (pyLower message) greetingWords = false →
        wordHit (pyLower message) recommendWords = false →
        wordHit (pyLower message) priceWords = false →
        wordHit (pyLower message) categoryWords = false →
        findIntent st message = "unknown")) := by
  constructor
  · intro i it n hi hname hmatch hbef
    have hfind : st.intents.find? (fun it => intentMatches (pyLower message) it)
        = some it := find?_first _ _ i it hi hmatch hbef
    simp [findIntent, hfind, hname]
  · intro hnone
    have hfind : st.intents.find? (fun it => intentMatches (pyLower message) it)
        = none := List.find?_eq_none.mpr (fun x hx => by simp [hnone x hx])
    have hstep : findIntent st message =
        (if wordHit (pyLower message) greetingWords then "greeting"
         else if wordHit (pyLower message) recommendWords then "recommendation"
         else if wordHit (pyLower message) priceWords then "price_inquiry"
         else if wordHit (pyLower message) categoryWords then "category_query"
         else "unknown") := by
      simp only [findIntent]
      rw [hfind]
    refine ⟨?_, ?_, ?_, ?_, ?_⟩ <;> intros <;> rw [hstep] <;> simp [*]

theorem c2_find_intent_priority_witness :
    findIntent c2State "what is the price hi there" = "catalog_greet" ∧
    findIntent ⟨[], [], []⟩ "suggest a perfume" = "recommendation" := by
  constructor
  · exact (c2_find_intent_priority c2State "what is the price hi there").1
      0 ⟨some "catalog_greet", some ["hi"], none⟩ "catalog_greet" rfl rfl
      (by decide) (fun j it0 hj _ => absurd hj (Nat.not_lt_zero j))
  · exact (((c2_find_intent_priority ⟨[], [], []⟩ "suggest a perfume").2
      (by simp [AIState.intents])).2.1) (by decide) (by decide)

/-- C3: entity matching runs a name phase, then a category phase, then a note
phase; each phase scans the whole product list in catalog order and the first
hit within a phase wins; any name hit beats any category hit, any category hit
beats any note hit, the match direction being stored-field-in-user-text; when
no phase hits, the result is none. -/
theorem c3_find_perfume_phases (st : AIState) (query : String) :
    (∀ (i : Nat) (p : Perfume), st.perfumes[i]? = some p →
        nameMatch (pyLower query) p = true →
        (∀ j q0, j < i → st.perfumes[j]? = some q0 →
            nameMatch (pyLower query) q0 = false) →
        findPerfume st query = some p) ∧
    ((∀ p ∈ st.perfumes, nameMatch (pyLower query) p = false) →
      ∀ (i : Nat) (p : Perfume), st.perfumes[i]? = some p →
        catMatch (pyLower query) p = true →
        (∀ j q0, j < i → st.perfumes[j]? = some q0 →
            catMatch (pyLower query) q0 = false) →
        findPerfume st query = some p) ∧
    ((∀ p ∈ st.perfumes, nameMatch (pyLower query) p = false) →
      (∀ p ∈ st.perfumes, catMatch (pyLower query) p = false) →
      ∀ (i : Nat) (p : Perfume), st.perfumes[i]? = some p →
        noteMatch (pyLower query) p = true →
        (∀ j q0, j < i → st.perfumes[j]? = some q0 →
            noteMatch (pyLower query) q0 = false) →
        findPerfume st query = some p) ∧
    ((∀ p ∈ st.perfumes, nameMatch (pyLower query) p = false) →
      (∀ p ∈ st.perfumes, catMatch (pyLower query) p = false) →
      (∀ p ∈ st.perfumes, noteMatch (pyLower query) p = false) →
      findPerfume st query = none) := by
  refine ⟨?_, ?_, ?_, ?_⟩
  · intro i p hi hm hbef
    have hfind := find?_first (fun p => nameMatch (pyLower query) p) _ i p hi hm hbef
    simp [findPerfume, hfind]
  · intro hname i p hi hm hbef
    have hfindn : st.perfumes.find? (fun p => nameMatch (pyLower query) p) = none :=
      List.find?_eq_none.mpr (fun x hx => by simp [hname x hx])
    have hfind := find?_first (fun p => catMatch (pyLower query) p) _ i p hi hm hbef
    simp [findPerfume, hfindn, hfind]
  · intro hname hcat i p hi hm hbef
    have hfindn : st.perfumes.find? (fun p => nameMatch (pyLower query) p) = none :=
      List.find?_eq_none.mpr (fun x hx => by simp [hname x hx])
    have hfindc : st.perfumes.find? (fun p => catMatch (pyLower query) p) = none :=
      List.find?_eq_none.mpr (fun x hx => by simp [hcat x hx])
    have hfind := find?_first (fun p => noteMatch (pyLower query) p) _ i p hi hm hbef
    simp [findPerfume, hfindn, hfindc, hfind]
  · intro hname hcat hnote
    have hfindn : st.perfumes.find? (fun p => nameMatch (pyLower query) p) = none :=
      List.find?_eq_none.mpr (fun x hx => by simp [hname x hx])
    have hfindc : st.perfumes.find? (fun p => catMatch (pyLower query) p) = none :=
      List.find?_eq_none.mpr (fun x hx => by simp [hcat x hx])
    have hfindo : st.perfumes.find? (fun p => noteMatch (pyLower query) p) = none :=
      List.find?_eq_none.mpr (fun x hx => by simp [hnote x hx])
    simp [findPerfume, hfindn, hfindc, hfindo]

theorem c3_find_perfume_phases_witness :
    findPerfume defaultState "i want Floral Dream please" =
      some ⟨some 1, some "Floral Dream", some "45.99", some "floral", none, none⟩ ∧
    findPerfume defaultState "any woody stuff" =
      some ⟨some 2, some "Woody Essence", some "59.99", some "woody", none, none⟩ := by
  constructor
  · exact (c3_find_perfume_phases defaultState "i want Floral Dream please").1
      0 ⟨some 1, some "Floral Dream", some "45.99", some "floral", none, none⟩
      rfl (by decide) (fun j q0 hj _ => absurd hj (Nat.not_lt_zero j))
  · exact ((c3_find_perfume_phases defaultState "any woody stuff").2.1
      (by decide)
      1 ⟨some 2, some "Woody Essence", some "59.99", some "woody", none, none⟩
      rfl (by decide)
      (fun j q0 hj hq => by
        have hj0 : j = 0 := Nat.lt_one_iff.mp hj
        subst hj0
        simp only [defaultState, defaultPerfumes, List.getElem?_cons_zero,
          Option.some.injEq] at hq
        subst hq
        decide))

/-- C4: FAQ matching returns none when, for every stored FAQ, none of the
first three whitespace-separated lower-cased words of its question occurs in
the lower-cased input; when some FAQ matches, the first matching FAQ in
catalog order supplies the returned answer. -/
theorem c4_answer_faq_first_match (st : AIState) (question : String) :
    ((∀ f ∈ st.faqs, faqMatches (pyLower question) f = false) →
      answerFaq st question = none) ∧
    (∀ (i : Nat) (f : Faq), st.faqs[i]? = some f →
        faqMatches (pyLower question) f = true →
        (∀ j f0, j < i → st.faqs[j]? = some f0 →
            faqMatches (pyLower question) f0 = false) →
        answerFaq st question = f.answer) := by
  constructor
  · intro hnone
    have hfind : st.faqs.find? (fun f => faqMatches (pyLower question) f) = none :=
      List.find?_eq_none.mpr (fun x hx => by simp [hnone x hx])
    simp [answerFaq, hfind]
  · intro i f hi hm hbef
    have hfind := find?_first (fun f => faqMatches (pyLower question) f) _ i f hi hm hbef
    simp [answerFaq, hfind]

theorem c4_answer_faq_first_match_witness :
    answerFaq c4State "how long?" = some "Several hours." ∧
    answerFaq c4State "zzz" = none := by
  constructor
  · exact (c4_answer_faq_first_match c4State "how long?").2
      0 ⟨some "How long does perfume last?", some "Several hours."⟩
      rfl (by decide) (fun j f0 hj _ => absurd hj (Nat.not_lt_zero j))
  · exact (c4_answer_faq_first_match c4State "zzz").1 (by decide)

/-- The empty string occurs in every string, as in Python. -/
theorem strContains_empty (s : String) : strContains s "" = true := by
  simp only [strContains]
  have h0 : ("" : String).toList = [] := rfl
  rw [h0]
  cases s.toList with
  | nil => rfl
  | cons c cs => simp [listInfix, List.isPrefixOf]

/-- Strings collected by `rawCategories` are never empty: the comprehension
filters on the truthiness of `p.get("category")`. -/
theorem rawCategories_ne_empty {ps : List Perfume} {c : String}
    (h : c ∈ rawCategories ps) : c ≠ "" := by
  simp only [rawCategories, List.mem_filterMap] at h
  obtain ⟨p, _, hp⟩ := h
  by_cases ht : pyTruthy p.category = true
  · rw [if_pos ht] at hp
    cases hcat : p.category with
    | none => rw [hcat] at ht; simp [pyTruthy] at ht
    | some s =>
      rw [hcat] at ht hp
      simp only [Option.getD_some, Option.some.injEq] at hp
      subst hp
      simpa [pyTruthy] using ht
  · rw [if_neg ht] at hp
    simp at hp

/-- C5 counterexample: on a catalog whose products carry the categories
"floral" and "Floral", `GET /categories` returns the title-cased "Floral"
twice, because `list(set(...))` deduplicates the raw strings before
`.title()` is applied — the claim promises each title-cased category exactly
once. -/
theorem c5_counterexample :
    (getCategories [floralLower, floralMixed]).count "Floral" = 2 ∧
    ¬ (getCategories [floralLower, floralMixed]).count "Floral" = 1 := by
  decide

/-- C5 as amended: `GET /categories` returns the title-cased images of the
distinct raw category strings: every category present appears title-cased in
the result, each distinct raw spelling contributes exactly one entry (so
same-spelling duplicates collapse — e.g. categories floral, woody, floral
give exactly Floral, Woody — while differently-cased spellings of one
category each contribute an entry). -/
theorem c5_categories_dedup_raw :
    (∀ (ps : List Perfume) (c : String), c ∈ rawCategories ps →
        pyTitle c ∈ getCategories ps) ∧
    (∀ (ps : List Perfume) (t : String),
        (getCategories ps).count t =
          ((rawCategories ps).dedup).countP (fun c => pyTitle c = t)) ∧
    (List.Perm
      (getCategories [⟨some 1, some "A", some "1.00", some "floral", none, none⟩,
                      ⟨some 2, some "B", some "2.00", some "woody", none, none⟩,
                      ⟨some 3, some "C", some "3.00", some "floral", none, none⟩])
      ["Floral", "Woody"]) := by
  have hfilter : ∀ ps : List Perfume,
      ((rawCategories ps).dedup).filter (fun c => c ≠ "") = (rawCategories ps).dedup := by
    intro ps
    apply List.filter_eq_self.mpr
    intro c hc
    simpa using rawCategories_ne_empty (List.mem_dedup.mp hc)
  refine ⟨?_, ?_, ?_⟩
  · intro ps c hc
    simp only [getCategories, hfilter, List.mem_map]
    exact ⟨c, List.mem_dedup.mpr hc, rfl⟩
  · intro ps t
    simp only [getCategories, hfilter, List.count_eq_countP, List.countP_map]
    apply List.countP_congr
    intro c _
    by_cases h : pyTitle c = t <;> simp [Function.comp, h]
  · decide

theorem c5_categories_dedup_raw_witness :
    pyTitle "floral" ∈ getCategories [floralLower, floralMixed] :=
  c5_categories_dedup_raw.1 [floralLower, floralMixed] "floral" (by decide)

/-- C6 counterexample: with source products id=2 then id-less, the id-less
product receives identifier 2 (its position + 1, not the next free id and not
a sequence starting at 1), so the resulting identifiers 2, 2 are not unique. -/
theorem c6_counterexample :
    (assignIds c6src).map Perfume.id = [some 2, some 2] ∧
    ¬ ((assignIds c6src).map Perfume.id).Nodup := by
  decide

/-- Positional form of the id assignment over `enumFrom`: when every source
product lacks an id, the assigned ids are `start+1, start+2, ...`. -/
theorem assignIds_all_missing :
    ∀ (ps : List Perfume) (n : Nat), (∀ p ∈ ps, p.id = none) →
      ((ps.enumFrom n).map assignEntry).map Perfume.id =
        (List.range ps.length).map (fun i => some (((n + i : Nat) : Int) + 1)) := by
  intro ps
  induction ps with
  | nil => intro n _; simp
  | cons h t ih =>
    intro n hall
    have hh : h.id = none := hall h (List.mem_cons_self h t)
    have ht := ih (n + 1) (fun p hp => hall p (List.mem_cons_of_mem _ hp))
    simp only [List.enumFrom_cons, List.map_cons, List.length_cons,
      List.range_succ_eq_map, List.map_map]
    congr 1
    · simp [assignEntry, hh, setId]
    · simp only [List.map_map] at ht
      rw [ht]
      apply List.map_congr_left
      intro i _
      simp only [Function.comp_apply, Option.some.injEq]
      omega

/-- C6 as amended: after loading every product has an identifier; a product
lacking one in the source is assigned its position + 1 counted over the whole
list (products with an explicit identifier keep it unchanged); when every
source product lacks an identifier the assigned identifiers are exactly
1..n in source order, hence unique — but an explicit source identifier can
collide with an assigned or another explicit identifier. -/
theorem c6_id_assignment :
    (∀ ps : List Perfume, ∀ p ∈ assignIds ps, p.id ≠ none) ∧
    (∀ (ps : List Perfume) (i : Nat) (p : Perfume), ps[i]? = some p →
        (p.id = none → (assignIds ps)[i]? = some (setId p ((i : Int) + 1))) ∧
        (p.id ≠ none → (assignIds ps)[i]? = some p)) ∧
    (∀ ps : List Perfume, (∀ p ∈ ps, p.id = none) →
        (assignIds ps).map Perfume.id =
          (List.range ps.length).map (fun i : Nat => some ((i : Int) + 1)) ∧
        ((assignIds ps).map Perfume.id).Nodup) := by
  refine ⟨?_, ?_, ?_⟩
  · intro ps p hp
    simp only [assignIds, List.mem_map] at hp
    obtain ⟨pair, _, hpair⟩ := hp
    by_cases hid : pair.2.id = none
    · simp [← hpair, assignEntry, hid, setId]
    · simp [← hpair, assignEntry, hid]
  · intro ps i p hi
    have henum : (ps.enum)[i]? = some (i, p) := by
      simp [List.enum, hi]
    constructor <;> intro hid
    · simp [assignIds, henum, assignEntry, hid]
    · simp [assignIds, henum, assignEntry, hid]
  · intro ps hall
    have hmap : (assignIds ps).map Perfume.id =
        (List.range ps.length).map (fun i : Nat => some ((i : Int) + 1)) := by
      have := assignIds_all_missing ps 0 hall
      simpa [assignIds, List.enum] using this
    refine ⟨hmap, ?_⟩
    rw [hmap]
    refine List.Nodup.map ?_ (List.nodup_range _)
    intro a b hab
    have h2 : (a : Int) + 1 = (b : Int) + 1 := by simpa using hab
    omega

theorem c6_id_assignment_witness :
    (assignIds [blankPerfume, blankPerfume]).map Perfume.id = [some 1, some 2] ∧
    ((assignIds [blankPerfume, blankPerfume]).map Perfume.id).Nodup := by
  have h := c6_id_assignment.2.2 [blankPerfume, blankPerfume] (by decide)
  refine ⟨?_, h.2⟩
  rw [h.1]
  decide

/-- C8 counterexample: a source that parses as JSON but whose top level is not
an object (for example a top-level JSON array) raises an uncaught
`AttributeError` out of `load_training_data` — only `FileNotFoundError` and
`JSONDecodeError` are caught — so catalog loading can raise to its caller on
a malformed source. -/
theorem c8_counterexample :
    loadTrainingData LoadSource.topLevelNonDict =
      Except.error "AttributeError: list object has no attribute get" := rfl

/-- C8 as amended: a missing data file yields the built-in default product
set with empty FAQ and intent lists, and a file that is not parseable as JSON
yields all-empty collections — neither raises; but a source whose JSON top
level is not an object escapes as an error (see the counterexample), so not
every malformed source degrades gracefully. -/
theorem c8_load_degradation :
    loadTrainingData LoadSource.missing = Except.ok (defaultPerfumes, [], []) ∧
    loadTrainingData LoadSource.invalidJson = Except.ok ([], [], []) ∧
    (∀ ps fs is, loadTrainingData (LoadSource.parsed ps fs is) =
        Except.ok (assignIds ps, fs, is)) :=
  ⟨rfl, rfl, fun _ _ _ => rfl⟩

/-- C10 counterexample: with catalog [namedA, nameless] and query "a", the
matcher returns `namedA` — the first product whose name matches — not the
first product with a missing name, although the claim says every query
returns the first such product. -/
theorem c10_counterexample :
    findPerfume ⟨[namedA, nameless], [], []⟩ "a" = some namedA ∧
    namedA ≠ nameless := by
  decide

/-- C10 as amended: if some product has a missing or empty name, the name
phase matches it against every input, so for every query the matcher returns
the first product (in catalog order) whose name phase matches — which is at
latest the first product with a missing or empty name — and the category and
note phases are never reached. -/
theorem c10_empty_name_shadows (st : AIState)
    (h : ∃ p ∈ st.perfumes, p.name.getD "" = "") (query : String) :
    ∃ p, st.perfumes.find? (fun p => nameMatch (pyLower query) p) = some p ∧
      findPerfume st query = some p := by
  obtain ⟨p0, hp0, hname⟩ := h
  have hsome : (st.perfumes.find? (fun p => nameMatch (pyLower query) p)).isSome := by
    rw [List.find?_isSome]
    refine ⟨p0, hp0, ?_⟩
    simp [nameMatch, hname, show pyLower "" = "" from rfl, strContains_empty]
  obtain ⟨p, hp⟩ := Option.isSome_iff_exists.mp hsome
  exact ⟨p, hp, by simp [findPerfume, hp]⟩

theorem c10_empty_name_shadows_witness :
    ∃ p, [nameless].find? (fun p => nameMatch (pyLower "hello") p) = some p ∧
      findPerfume ⟨[nameless], [], []⟩ "hello" = some p :=
  c10_empty_name_shadows ⟨[nameless], [], []⟩
    ⟨nameless, by decide, by decide⟩ "hello"

/-- A fold over `Except` succeeds when every step succeeds on every
accumulator. -/
theorem foldlM_success {α : Type} (step : String → α → Except String String) :
    ∀ (l : List α) (acc : String),
      (∀ a ∈ l, ∀ b, ∃ c, step b a = Except.ok c) →
      ∃ s, List.foldlM step acc l = Except.ok s := by
  intro l
  induction l with
  | nil => intro acc _; exact ⟨acc, rfl⟩
  | cons h t ih =>
    intro acc hall
    obtain ⟨c, hc⟩ := hall h (List.mem_cons_self h t) acc
    obtain ⟨s, hs⟩ := ih c (fun a ha b => hall a (List.mem_cons_of_mem _ ha) b)
    refine ⟨s, ?_⟩
    rw [List.foldlM_cons, hc]
    simpa using hs

/-- A recommendation bullet renders whenever the product has name and price. -/
theorem recLine_ok (p : Perfume) (hn : p.name ≠ none) (hp : p.price ≠ none)
    (b : String) : ∃ c, recLine b p = Except.ok c := by
  obtain ⟨n, hn2⟩ := Option.ne_none_iff_exists'.mp hn
  obtain ⟨pr, hp2⟩ := Option.ne_none_iff_exists'.mp hp
  cases hd : p.description <;> simp [recLine, getKey, hn2, hp2, hd] <;>
    exact ⟨_, rfl⟩

/-- A price-list bullet renders whenever the product has name and price. -/
theorem priceLine_ok (p : Perfume) (hn : p.name ≠ none) (hp : p.price ≠ none)
    (b : String) : ∃ c, priceLine b p = Except.ok c := by
  obtain ⟨n, hn2⟩ := Option.ne_none_iff_exists'.mp hn
  obtain ⟨pr, hp2⟩ := Option.ne_none_iff_exists'.mp hp
  simp [priceLine, getKey, hn2, hp2]
  exact ⟨_, rfl⟩

/-- A category-list bullet renders whenever the product has name and price. -/
theorem catLine_ok (p : Perfume) (hn : p.name ≠ none) (hp : p.price ≠ none)
    (b : String) : ∃ c, catLine b p = Except.ok c := by
  obtain ⟨n, hn2⟩ := Option.ne_none_iff_exists'.mp hn
  obtain ⟨pr, hp2⟩ := Option.ne_none_iff_exists'.mp hp
  simp [catLine, getKey, hn2, hp2]
  exact ⟨_, rfl⟩

/-- The product card renders whenever the product has name and price. -/
theorem perfumeCard_ok (p : Perfume) (hn : p.name ≠ none) (hp : p.price ≠ none) :
    ∃ c, perfumeCard p = Except.ok c := by
  obtain ⟨n, hn2⟩ := Option.ne_none_iff_exists'.mp hn
  obtain ⟨pr, hp2⟩ := Option.ne_none_iff_exists'.mp hp
  cases hc : p.category <;> cases hnt : p.notes <;> cases hd : p.description <;>
    simp [perfumeCard, getKey, hn2, hp2, hc, hnt, hd] <;>
    exact ⟨_, rfl⟩

/-- A matched perfume belongs to the catalog. -/
theorem findPerfume_mem {st : AIState} {q : String} {p : Perfume}
    (h : findPerfume st q = some p) : p ∈ st.perfumes := by
  simp only [findPerfume] at h
  cases h1 : st.perfumes.find? (fun x => nameMatch (pyLower q) x) with
  | some x => rw [h1] at h; cases h; exact List.mem_of_find?_eq_some h1
  | none =>
    rw [h1] at h
    cases h2 : st.perfumes.find? (fun x => catMatch (pyLower q) x) with
    | some x => rw [h2] at h; cases h; exact List.mem_of_find?_eq_some h2
    | none => rw [h2] at h; exact List.mem_of_find?_eq_some h

/-- Step 1 fires: a truthy FAQ answer short-circuits the generator. -/
theorem generateResponse_faq_hit (pick : List String → String)
    (sample : List Perfume → Nat → List Perfume) (st : AIState) (message : String)
    (h : pyTruthy (answerFaq st message) = true) :
    generateResponse pick sample st message =
      Except.ok ⟨(answerFaq st message).getD "", "faq", 9/10, none, none⟩ := by
  simp only [generateResponse]
  rw [if_pos h]

/-- Step 2 fires: with the FAQ step missed and an entity matched, the result
is the product card (or the `KeyError` it raises). -/
theorem generateResponse_entity_hit (pick : List String → String)
    (sample : List Perfume → Nat → List Perfume) (st : AIState) (message : String)
    (p : Perfume) (h : pyTruthy (answerFaq st message) = false)
    (hp : findPerfume st message = some p) :
    generateResponse pick sample st message =
      (match perfumeCard p with
       | Except.ok card => Except.ok ⟨card, "perfume_info", 8/10, some p, none⟩
       | Except.error e => Except.error e) := by
  simp only [generateResponse]
  rw [if_neg (by simp [h]), hp]

/-- Steps 1 and 2 missed: the generator delegates to the intent branches. -/
theorem generateResponse_intent_step (pick : List String → String)
    (sample : List Perfume → Nat → List Perfume) (st : AIState) (message : String)
    (h : pyTruthy (answerFaq st message) = false)
    (hp : findPerfume st message = none) :
    generateResponse pick sample st message = intentStep pick sample st message := by
  simp only [generateResponse]
  rw [if_neg (by simp [h]), hp]

/-- With a well-formed catalog (every product has name and price) and a sample
oracle drawing from its input, the intent step never raises, its confidence is
the branch constant, a greeting intent lands in the greeting branch, and an
intent outside the four handled labels lands in the fallback. -/
theorem intentStep_ok (pick : List String → String)
    (sample : List Perfume → Nat → List Perfume)
    (st : AIState) (message : String)
    (hwf : ∀ p ∈ st.perfumes, p.name ≠ none ∧ p.price ≠ none)
    (hs : ∀ p ∈ sample st.perfumes (min 3 st.perfumes.length), p ∈ st.perfumes) :
    ∃ r, intentStep pick sample st message = Except.ok r ∧
      r.confidence = branchConfidence r.rtype ∧
      r.rtype ∈ (["greeting", "recommendation", "price_info", "category_info",
        "fallback"] : List String) ∧
      (findIntent st message = "greeting" → r.rtype = "greeting") ∧
      (findIntent st message ∉ (["greeting", "recommendation", "price_inquiry",
          "category_query"] : List String) → r.rtype = "fallback") := by
  by_cases h1 : findIntent st message = "greeting"
  · refine ⟨⟨pick greetingResponses, "greeting", 9/10, none, none⟩, ?_, (branchConfidence_eval.2.2.1).symm,
      by simp, fun _ => rfl, fun hnot => absurd (by simp [h1]) hnot⟩
    simp only [intentStep]
    rw [if_pos h1]
  · by_cases h2 : findIntent st message = "recommendation"
    · by_cases he : st.perfumes.isEmpty = true
      · refine ⟨⟨pick fallbackResponses, "fallback", 3/10, none, none⟩, ?_, (branchConfidence_eval.2.2.2.2.2.2).symm,
          by simp, fun hg => absurd hg h1, fun _ => rfl⟩
        simp only [intentStep]
        rw [if_neg h1, if_pos h2, if_pos he]
        rfl
      · obtain ⟨body, hbody⟩ := foldlM_success recLine
          (sample st.perfumes (min 3 st.perfumes.length))
          "✨ **Top Recommendations:**\n\n"
          (fun a ha b => recLine_ok a ((hwf a (hs a ha)).1) ((hwf a (hs a ha)).2) b)
        refine ⟨⟨body, "recommendation", 8/10, none,
            some (sample st.perfumes (min 3 st.perfumes.length))⟩, ?_,
          (branchConfidence_eval.2.2.2.1).symm,
          by simp, fun hg => absurd hg h1, fun hnot => absurd (by simp [h2]) hnot⟩
        simp only [intentStep]
        rw [if_neg h1, if_pos h2, if_neg he, hbody]
    · by_cases h3 : findIntent st message = "price_inquiry"
      · by_cases he : st.perfumes.isEmpty = true
        · refine ⟨⟨pick fallbackResponses, "fallback", 3/10, none, none⟩, ?_,
            (branchConfidence_eval.2.2.2.2.2.2).symm,
            by simp, fun hg => absurd hg h1, fun _ => rfl⟩
          simp only [intentStep]
          rw [if_neg h1, if_neg h2, if_pos h3, if_pos he]
          rfl
        · obtain ⟨body, hbody⟩ := foldlM_success priceLine (st.perfumes.take 5)
            "💰 **Our Perfume Prices:**\n\n"
            (fun a ha b => priceLine_ok a ((hwf a (List.take_subset _ _ ha)).1)
              ((hwf a (List.take_subset _ _ ha)).2) b)
          refine ⟨⟨body, "price_info", 7/10, none, none⟩, ?_,
            (branchConfidence_eval.2.2.2.2.1).symm,
            by simp, fun hg => absurd hg h1, fun hnot => absurd (by simp [h3]) hnot⟩
          simp only [intentStep]
          rw [if_neg h1, if_neg h2, if_pos h3, if_neg he, hbody]
      · by_cases h4 : findIntent st message = "category_query"
        · cases hfind : categoryWords.find? (fun c => strContains (pyLower message) c) with
          | none =>
            refine ⟨⟨pick fallbackResponses, "fallback", 3/10, none, none⟩, ?_,
              (branchConfidence_eval.2.2.2.2.2.2).symm,
              by simp, fun hg => absurd hg h1, fun _ => rfl⟩
            simp only [intentStep]
            rw [if_neg h1, if_neg h2, if_neg h3, if_pos h4, hfind]
            rfl
          | some cat =>
            by_cases hfe : (st.perfumes.filter (fun p => p.category = some cat)).isEmpty = true
            · refine ⟨⟨pick fallbackResponses, "fallback", 3/10, none, none⟩, ?_,
                (branchConfidence_eval.2.2.2.2.2.2).symm,
                by simp, fun hg => absurd hg h1, fun _ => rfl⟩
              simp only [intentStep]
              rw [if_neg h1, if_neg h2, if_neg h3, if_pos h4, hfind]
              have hred :
                  (if (st.perfumes.filter (fun p => p.category = some cat)).isEmpty = true
                   then fallbackResult pick
                   else
                     match
                       List.foldlM catLine ("🌸 **" ++ pyTitle cat ++ " Perfumes:**\n\n")
                         (st.perfumes.filter (fun p => p.category = some cat)) with
                     | Except.ok body =>
                         Except.ok ⟨body, "category_info", 8/10, none, none⟩
                     | Except.error e => Except.error e) =
                  Except.ok ⟨pick fallbackResponses, "fallback", 3/10, none, none⟩ := by
                rw [if_pos hfe]
                rfl
              exact hred
            · obtain ⟨body, hbody⟩ := foldlM_success catLine
                (st.perfumes.filter (fun p => p.category = some cat))
                ("🌸 **" ++ pyTitle cat ++ " Perfumes:**\n\n")
                (fun a ha b => catLine_ok a ((hwf a (List.mem_of_mem_filter ha)).1)
                  ((hwf a (List.mem_of_mem_filter ha)).2) b)
              refine ⟨⟨body, "category_info", 8/10, none, none⟩, ?_,
                (branchConfidence_eval.2.2.2.2.2.1).symm,
                by simp, fun hg => absurd hg h1, fun hnot => absurd (by simp [h4]) hnot⟩
              simp only [intentStep]
              rw [if_neg h1, if_neg h2, if_neg h3, if_pos h4, hfind]
              have hred :
                  (if (st.perfumes.filter (fun p => p.category = some cat)).isEmpty = true
                   then fallbackResult pick
                   else
                     match
                       List.foldlM catLine ("🌸 **" ++ pyTitle cat ++ " Perfumes:**\n\n")
                         (st.perfumes.filter (fun p => p.category = some cat)) with
                     | Except.ok body =>
                         Except.ok ⟨body, "category_info", 8/10, none, none⟩
                     | Except.error e => Except.error e) =
                  Except.ok ⟨body, "category_info", 8/10, none, none⟩ := by
                rw [if_neg hfe, hbody]
              exact hred
        · refine ⟨⟨pick fallbackResponses, "fallback", 3/10, none, none⟩, ?_,
            (branchConfidence_eval.2.2.2.2.2.2).symm,
            by simp, fun hg => absurd hg h1, fun _ => rfl⟩
          simp only [intentStep]
          rw [if_neg h1, if_neg h2, if_neg h3, if_neg h4]
          rfl

/-- Whatever the catalog, a successful intent step carries one of the five
step-3 / step-4 type tags. -/
theorem intentStep_rtype (pick : List String → String)
    (sample : List Perfume → Nat → List Perfume) (st : AIState) (message : String)
    (t : String) (h : rtypeOf (intentStep pick sample st message) = some t) :
    t ∈ (["greeting", "recommendation", "price_info", "category_info",
      "fallback"] : List String) := by
  simp only [intentStep, fallbackResult] at h
  repeat' split at h
  all_goals simp [rtypeOf] at h
  all_goals simp [← h]

/-- C9: the generator produces a faq-type response exactly when the first FAQ
in catalog order whose question matches the input has a present, nonempty
answer; when that first match carries a missing or empty answer the FAQ step
counts as a miss (even if a later matching FAQ has a usable answer) and the
pipeline moves on to entity matching and intents, whose outcomes never carry
the faq tag. -/
theorem c9_faq_gate (pick : List String → String)
    (sample : List Perfume → Nat → List Perfume) (st : AIState) (message : String) :
    rtypeOf (generateResponse pick sample st message) = some "faq" ↔
      (∃ f, st.faqs.find? (fun f => faqMatches (pyLower message) f) = some f ∧
        ∃ s, f.answer = some s ∧ s ≠ "") := by
  have key : pyTruthy (answerFaq st message) = true ↔
      (∃ f, st.faqs.find? (fun f => faqMatches (pyLower message) f) = some f ∧
        ∃ s, f.answer = some s ∧ s ≠ "") := by
    cases hfind : st.faqs.find? (fun f => faqMatches (pyLower message) f) with
    | none => simp [answerFaq, hfind, pyTruthy]
    | some f =>
      cases hans : f.answer with
      | none => simp [answerFaq, hfind, hans, pyTruthy]
      | some s =>
        by_cases hs : s = "" <;> simp [answerFaq, hfind, hans, pyTruthy, hs]
  constructor
  · intro h
    by_cases htr : pyTruthy (answerFaq st message) = true
    · exact key.mp htr
    · exfalso
      have hfalse : pyTruthy (answerFaq st message) = false := by simpa using htr
      cases hp : findPerfume st message with
      | some p =>
        rw [generateResponse_entity_hit pick sample st message p hfalse hp] at h
        cases hcard : perfumeCard p <;> rw [hcard] at h <;> simp [rtypeOf] at h
      | none =>
        rw [generateResponse_intent_step pick sample st message hfalse hp] at h
        have hmem := intentStep_rtype pick sample st message "faq" h
        simp at hmem
  · intro h
    rw [generateResponse_faq_hit pick sample st message (key.mpr h)]
    rfl

/-- C1: the generator evaluates the fixed priority chain FAQ, entity, intent
branches, fallback, returning on first success, with the per-branch constant
confidences: faq 0.9, perfume_info 0.8, greeting 0.9, recommendation 0.8,
price_info 0.7, category_info 0.8, fallback 0.3 (the result confidence always
equals the table entry for its type tag); an intent outside the four handled
labels yields the fallback.  Stated for a well-formed catalog — every product
carries the name and price keys the spec data model requires — and a sample
oracle that draws from its input list; without those the formatting step
raises a KeyError instead of returning. -/
theorem c1_priority_chain (pick : List String → String)
    (sample : List Perfume → Nat → List Perfume) (st : AIState) (message : String)
    (hwf : ∀ p ∈ st.perfumes, p.name ≠ none ∧ p.price ≠ none)
    (hs : ∀ (l : List Perfume) (n : Nat), ∀ p ∈ sample l n, p ∈ l) :
    ∃ r, generateResponse pick sample st message = Except.ok r ∧
      r.confidence = branchConfidence r.rtype ∧
      (pyTruthy (answerFaq st message) = true →
        r.rtype = "faq" ∧ r.confidence = 9/10) ∧
      (pyTruthy (answerFaq st message) = false →
        ((findPerfume st message).isSome →
          r.rtype = "perfume_info" ∧ r.confidence = 8/10) ∧
        (findPerfume st message = none →
          (findIntent st message = "greeting" →
            r.rtype = "greeting" ∧ r.confidence = 9/10) ∧
          (findIntent st message ∉ (["greeting", "recommendation", "price_inquiry",
              "category_query"] : List String) →
            r.rtype = "fallback" ∧ r.confidence = 3/10) ∧
          r.rtype ∈ (["greeting", "recommendation", "price_info", "category_info",
            "fallback"] : List String))) := by
  by_cases hfaq : pyTruthy (answerFaq st message) = true
  · exact ⟨⟨(answerFaq st message).getD "", "faq", 9/10, none, none⟩,
      generateResponse_faq_hit pick sample st message hfaq,
      (branchConfidence_eval.1).symm,
      fun _ => ⟨rfl, rfl⟩,
      fun hfalse => absurd hfaq (by simp [hfalse])⟩
  · have hfalse : pyTruthy (answerFaq st message) = false := by simpa using hfaq
    cases hp : findPerfume st message with
    | some p =>
      have hmem := findPerfume_mem hp
      obtain ⟨card, hcard⟩ := perfumeCard_ok p (hwf p hmem).1 (hwf p hmem).2
      have hgen : generateResponse pick sample st message =
          Except.ok ⟨card, "perfume_info", 8/10, some p, none⟩ := by
        rw [generateResponse_entity_hit pick sample st message p hfalse hp, hcard]
      exact ⟨⟨card, "perfume_info", 8/10, some p, none⟩, hgen,
        (branchConfidence_eval.2.1).symm,
        fun htr => absurd htr hfaq,
        fun _ => ⟨fun _ => ⟨rfl, rfl⟩, fun hnone => by simp [hp] at hnone⟩⟩
    | none =>
      obtain ⟨r, hr, hconf, hmem5, hgr, hfb⟩ :=
        intentStep_ok pick sample st message hwf (fun p hp2 => hs _ _ p hp2)
      refine ⟨r, ?_, hconf, fun htr => absurd htr hfaq,
        fun _ => ⟨fun hsome => by simp [hp] at hsome,
          fun _ => ⟨fun hg => ⟨hgr hg, ?_⟩, fun hnot => ⟨hfb hnot, ?_⟩, hmem5⟩⟩⟩
      · rw [generateResponse_intent_step pick sample st message hfalse hp]
        exact hr
      · rw [hconf, hgr hg]
        exact branchConfidence_eval.2.2.1
      · rw [hconf, hfb hnot]
        exact branchConfidence_eval.2.2.2.2.2.2

theorem c1_priority_chain_witness :
    ∃ r, generateResponse pickHead sampleNone defaultState "hello there" =
        Except.ok r ∧
      r.confidence = branchConfidence r.rtype := by
  obtain ⟨r, h1, h2, _⟩ := c1_priority_chain pickHead sampleNone defaultState
    "hello there" (by decide)
    (fun l n p hp => absurd hp (by simp [sampleNone]))
  exact ⟨r, h1, h2⟩

/-- C7 counterexample: with an entirely empty catalog, the message
"recommend something" is NOT classified as recommendation — the greeting
group is checked first and "hi" occurs inside "something" — so the generator
returns a greeting response with confidence 0.9, not the fallback with
confidence 0.3 that the claim promises for this very message. -/
theorem c7_counterexample :
    generateResponse pickHead sampleNone ⟨[], [], []⟩ "recommend something" =
      Except.ok ⟨pickHead greetingResponses, "greeting", 9/10, none, none⟩ ∧
    rtypeOf (generateResponse pickHead sampleNone ⟨[], [], []⟩
      "recommend something") ≠ some "fallback" := by
  have h1 : generateResponse pickHead sampleNone ⟨[], [], []⟩ "recommend something" =
      Except.ok ⟨pickHead greetingResponses, "greeting", 9/10, none, none⟩ := by
    rw [generateResponse_intent_step pickHead sampleNone ⟨[], [], []⟩
      "recommend something" rfl rfl]
    simp only [intentStep]
    rw [if_pos (by decide :
      findIntent ⟨[], [], []⟩ "recommend something" = "greeting")]
  refine ⟨h1, ?_⟩
  rw [h1]
  simp [rtypeOf]

/-- C7 as amended: for every message whose intent classification lands in
recommendation, price_inquiry or category_query while the product catalog is
empty and the FAQ step missed, the generator falls through to the fallback
branch: type fallback, confidence 0.3, never an empty recommendation list.
The spec example message "recommend something" does not reach those branches
(it classifies as greeting because "hi" occurs inside "something"); a message
such as "recommend a perfume" does. -/
theorem c7_empty_catalog_fallback (pick : List String → String)
    (sample : List Perfume → Nat → List Perfume) (st : AIState) (message : String)
    (hp : st.perfumes = [])
    (hfaq : pyTruthy (answerFaq st message) = false)
    (hint : findIntent st message ∈ (["recommendation", "price_inquiry",
      "category_query"] : List String)) :
    generateResponse pick sample st message =
      Except.ok ⟨pick fallbackResponses, "fallback", 3/10, none, none⟩ := by
  have hfp : findPerfume st message = none := by
    simp [findPerfume, hp]
  rw [generateResponse_intent_step pick sample st message hfaq hfp]
  have hne : findIntent st message ≠ "greeting" := by
    intro hg
    rw [hg] at hint
    simp at hint
  have hempty : st.perfumes.isEmpty = true := by rw [hp]; rfl
  simp only [List.mem_cons, List.not_mem_nil, or_false] at hint
  rcases hint with hr | hpr | hc
  · simp only [intentStep]
    rw [if_neg hne, if_pos hr, if_pos hempty]
    rfl
  · simp only [intentStep]
    rw [if_neg hne, if_neg (by rw [hpr]; decide), if_pos hpr, if_pos hempty]
    rfl
  · simp only [intentStep]
    rw [if_neg hne, if_neg (by rw [hc]; decide), if_neg (by rw [hc]; decide),
      if_pos hc]
    cases hfind : categoryWords.find? (fun c => strContains (pyLower message) c) with
    | none =>
      rfl
    | some cat =>
      have hfe : (st.perfumes.filter (fun p => p.category = some cat)).isEmpty = true := by
        rw [hp]
        rfl
      have hred :
          (if (st.perfumes.filter (fun p => p.category = some cat)).isEmpty = true
           then fallbackResult pick
           else
             match
               List.foldlM catLine ("🌸 **" ++ pyTitle cat ++ " Perfumes:**\n\n")
                 (st.perfumes.filter (fun p => p.category = some cat)) with
             | Except.ok body =>
                 Except.ok ⟨body, "category_info", 8/10, none, none⟩
             | Except.error e => Except.error e) =
          Except.ok ⟨pick fallbackResponses, "fallback", 3/10, none, none⟩ := by
        rw [if_pos hfe]
        rfl
      exact hred

theorem c7_empty_catalog_fallback_witness :
    generateResponse pickHead sampleNone ⟨[], [], []⟩ "recommend a perfume" =
      Except.ok ⟨pickHead fallbackResponses, "fallback", 3/10, none, none⟩ :=
  c7_empty_catalog_fallback pickHead sampleNone ⟨[], [], []⟩ "recommend a perfume"
    rfl rfl (by decide)
